import Mathlib

/-!
# Foosballin: binary LED score counter (src/foosballin.c)

A shallow embedding of the scoring logic of `foosballin.c`: the global score
variables, the two LED ports, `update_score`, `LED_S1_update`, `LED_S2_update`,
`reset_score`, the celebrations and the control flow of `main`.

Conventions of the embedding.
* The C `int` globals are mathematical integers (`Int`); signed overflow is
  undefined in C and no run of `main` comes near it.
* `PORTB` and `PORTD` are 8-bit registers held as natural numbers; bit `i` of a
  register `r` is `r.testBit i`.
* `debug` only touches `rx_buffer`, the USB link and the on-board LEDs, none of
  which is modelled here, so it is left out. `m_wait` changes no variable; it is
  left out of the state transformers and recorded as a frame of LED output in
  the code after the Active loop (`endGame`).
* The two `ADC` conversions of `update_ADC` are supplied by the environment as
  the `Reading` of a cycle. The loop body also takes the value of
  `check(DDRC,6)` from the `Reading`, which covers every value the read could
  give; the value the program really gets is `readResetButton`, and
  `WiredReadings` restricts a run to it.
-/

namespace Foosballin

/-! ## Constants (`#define`s of the source) -/

def NUM_LEDS : Nat := 4
def CELEBRATE_TIMES : Nat := 4
def LIGHT_SHOW_DELAY1_MS : Nat := 5
def LIGHT_SHOW_DELAY2_MS : Nat := 10
def LIGHT_SHOW_DELAY3_MS : Nat := 5
def RESET_LED_MS : Nat := 100
def GOAL_THRESHOLD : Int := 400
def END_GAME_WAIT : Nat := 20

/-! ## Register macros -/

/-- Modelled from the spec: the macro `set(reg, bit)` of `m_general.h`, which is
not part of the sources; it sets the single bit `bit` of a register
(`reg |= 1 << bit`). -/
def setBit (reg bit : Nat) : Nat := reg ||| (1 <<< bit)

/-- Modelled from the spec: the macro `clear(reg, bit)` of `m_general.h`, which
is not part of the sources; it clears the single bit `bit` of an 8-bit register
(`reg &= ~(1 << bit)`). -/
def clearBit (reg bit : Nat) : Nat := reg &&& (255 ^^^ (1 <<< bit))

/-- The global variables of the program and the two LED output ports. -/
structure State where
  score1 : Int
  score2 : Int
  maxScore : Int
  resetButton : Int
  f0val : Int
  f1val : Int
  counterS1 : Int
  counterS2 : Int
  PORTB : Nat
  PORTD : Nat
deriving DecidableEq, Repr

/-- The initialisers of the globals (lines 26-35); the ports are 0 after a
hardware reset and the ADC values, uninitialised globals, are 0. -/
def initState : State :=
  { score1 := 0, score2 := 0, maxScore := 10, resetButton := 1,
    f0val := 0, f1val := 0, counterS1 := 0, counterS2 := 0,
    PORTB := 0, PORTD := 0 }

/-! ## Display updates -/

/-- `LED_S1_update` (lines 216-242). -/
def LED_S1_update (s : State) : State :=
  -- LED #0
  let s := if Int.tmod s.score1 2 = 0 then { s with PORTB := clearBit s.PORTB 0 }
           else { s with PORTB := setBit s.PORTB 0 }
  -- LED #1
  let s := if s.score1 < 4 ∨ (s.score1 > 7 ∧ s.score1 < 12)
           then { s with PORTB := clearBit s.PORTB 1 }
           else { s with PORTB := setBit s.PORTB 1 }
  -- LED #2
  let s := if s.counterS1 < 2 then { s with PORTB := clearBit s.PORTB 2 }
           else if s.counterS1 = 2 then { s with PORTB := setBit s.PORTB 2 }
           else if s.counterS1 > 2 then
             { s with PORTB := setBit s.PORTB 2, counterS1 := 0 }
           else s
  -- LED #3
  if s.score1 < 8 then { s with PORTB := clearBit s.PORTB 3 }
  else { s with PORTB := setBit s.PORTB 3 }

/-- `LED_S2_update` (lines 245-271); the last branch of LED #2 tests
`counterS1`, as the source does. -/
def LED_S2_update (s : State) : State :=
  -- LED #0
  let s := if Int.tmod s.score2 2 = 0 then { s with PORTD := clearBit s.PORTD 0 }
           else { s with PORTD := setBit s.PORTD 0 }
  -- LED #1
  let s := if s.score2 < 4 ∨ (s.score2 > 7 ∧ s.score2 < 12)
           then { s with PORTD := clearBit s.PORTD 1 }
           else { s with PORTD := setBit s.PORTD 1 }
  -- LED #2
  let s := if s.counterS2 < 2 then { s with PORTD := clearBit s.PORTD 2 }
           else if s.counterS2 = 2 then { s with PORTD := setBit s.PORTD 2 }
           else if s.counterS1 > 2 then
             { s with PORTD := setBit s.PORTD 2, counterS2 := 0 }
           else s
  -- LED #3
  if s.score2 < 8 then { s with PORTD := clearBit s.PORTD 3 }
  else { s with PORTD := setBit s.PORTD 3 }

/-! ## Goal detection -/

/-- The assignments of the first branch of `update_score` that precede the
display update (lines 200-202). -/
def credit1 (s : State) : State :=
  { s with score1 := s.score1 + 1, counterS1 := s.counterS1 + 1, f0val := 0 }

/-- The assignments of the second branch of `update_score` that precede the
display update (lines 207-209); the source increments `counterS1` here. -/
def credit2 (s : State) : State :=
  { s with score2 := s.score2 + 1, counterS1 := s.counterS1 + 1, f1val := 0 }

/-- `update_score` (lines 198-213). -/
def update_score (s : State) : State :=
  if s.f0val > GOAL_THRESHOLD then LED_S1_update (credit1 s)
  else if s.f1val > GOAL_THRESHOLD then LED_S2_update (credit2 s)
  else s

/-! ## Celebrations and reset -/

/-- `for(int i=0; i<NUM_LEDS; i++) set(reg, i);` -/
def setAll (reg : Nat) : Nat := (List.range NUM_LEDS).foldl setBit reg

/-- `for(int i=0; i<NUM_LEDS; i++) clear(reg, i);` -/
def clearAll (reg : Nat) : Nat := (List.range NUM_LEDS).foldl clearBit reg

/-- The body of the `while` loop of a celebration, on the celebrated port. -/
def danceOnce (reg : Nat) : Nat := clearAll (setAll reg)

/-- `player1_celebration` (lines 128-143). -/
def player1_celebration (s : State) : State :=
  { s with PORTB := (List.range CELEBRATE_TIMES).foldl (fun r _ => danceOnce r) s.PORTB }

/-- `player2_celebration` (lines 146-161). -/
def player2_celebration (s : State) : State :=
  { s with PORTD := (List.range CELEBRATE_TIMES).foldl (fun r _ => danceOnce r) s.PORTD }

/-- One pass of the `for` loop of `reset_score` (lines 166-188): all eight
score LEDs on, then all eight off. -/
def flashOnce (s : State) : State :=
  let s := { s with PORTB := setBit (setBit (setBit (setBit s.PORTB 0) 1) 2) 3 }
  let s := { s with PORTD := setBit (setBit (setBit (setBit s.PORTD 0) 1) 2) 3 }
  let s := { s with PORTB := clearBit (clearBit (clearBit (clearBit s.PORTB 0) 1) 2) 3 }
  { s with PORTD := clearBit (clearBit (clearBit (clearBit s.PORTD 0) 1) 2) 3 }

/-- `reset_score` (lines 164-195). -/
def reset_score (s : State) : State :=
  let s := (List.range NUM_LEDS).foldl (fun t _ => flashOnce t) s
  { s with score1 := 0, score2 := 0, counterS1 := 0, counterS2 := 0 }

/-- `init_LEDs` (lines 92-112), on the two output ports. -/
def init_LEDs (s : State) : State :=
  let s := { s with PORTB := clearBit (clearBit (clearBit (clearBit s.PORTB 0) 1) 2) 3 }
  { s with PORTD := clearBit (clearBit (clearBit (clearBit s.PORTD 0) 1) 2) 3 }

/-- `LED_show` (lines 121-125). -/
def LED_show (s : State) : State := player2_celebration (player1_celebration s)

/-! ## The control flow of `main` -/

/-- What the environment supplies in one pass of the Active loop: the value of
`check(DDRC,6)` and the two ADC conversions of `update_ADC`. -/
structure Reading where
  button : Int
  adc0 : Int
  adc1 : Int
deriving DecidableEq, Repr

/-- The guard of the Active loop (line 71). -/
def activeGuard (s : State) : Bool :=
  decide (s.score1 < s.maxScore) && decide (s.score2 < s.maxScore) &&
    decide (s.resetButton ≠ 0)

/-- `update_ADC` (lines 292-320) on the modelled variables. -/
def update_ADC (s : State) (r : Reading) : State :=
  { s with f0val := r.adc0, f1val := r.adc1 }

/-- The body of the Active loop (lines 72-75). The value of `check(DDRC,6)` is
taken from the reading, so that every value of the read is covered; the value
the program gets is `readResetButton` (see `WiredReadings`). -/
def activeBody (s : State) (r : Reading) : State :=
  update_score (update_ADC { s with resetButton := r.button } r)

/-- Who is celebrated at the victor check (lines 79-84). -/
inductive Victor where
  | player1
  | player2
  | nobody
deriving DecidableEq, Repr

/-- The decision of the victor check (lines 79-84). -/
def victor (s : State) : Victor :=
  if s.score1 ≥ s.maxScore then Victor.player1
  else if s.score2 ≥ s.maxScore then Victor.player2
  else Victor.nobody

/-! ### What the LEDs show after the Active loop

The code after the Active loop only drives the LEDs and waits, so what it
does is visible only in time: the functions below run the same statements
as the state transformers above and also record, for every `m_wait`, how long
it lasts and what the two ports show meanwhile. -/

/-- What the two LED ports show while one `m_wait` runs, and for how long. -/
structure Frame where
  ms : Nat
  PORTB : Nat
  PORTD : Nat
deriving DecidableEq, Repr

/-- Modelled from the spec: `m_wait(ms)` of `m_general.h`, which is not part of
the sources; a blocking sleep of `ms` milliseconds. It changes no variable;
the ports keep their values for that time, which is recorded as a frame. -/
def m_wait (ms : Nat) (t : State × List Frame) : State × List Frame :=
  (t.1, t.2 ++ [{ ms := ms, PORTB := t.1.PORTB, PORTD := t.1.PORTD }])

/-- The body of the `while` loop of `player1_celebration` (lines 132-141) with
the frames of its waits. -/
def player1_danceT (t : State × List Frame) : State × List Frame :=
  let t := (List.range NUM_LEDS).foldl (fun t i =>
    m_wait LIGHT_SHOW_DELAY1_MS ({ t.1 with PORTB := setBit t.1.PORTB i }, t.2)) t
  let t := m_wait LIGHT_SHOW_DELAY2_MS t
  (List.range NUM_LEDS).foldl (fun t i =>
    m_wait LIGHT_SHOW_DELAY3_MS ({ t.1 with PORTB := clearBit t.1.PORTB i }, t.2)) t

/-- `player1_celebration` (lines 128-143) with the frames of its waits. -/
def player1_celebrationT (t : State × List Frame) : State × List Frame :=
  (List.range CELEBRATE_TIMES).foldl (fun t _ => player1_danceT t) t

/-- The body of the `while` loop of `player2_celebration` (lines 150-159) with
the frames of its waits. -/
def player2_danceT (t : State × List Frame) : State × List Frame :=
  let t := (List.range NUM_LEDS).foldl (fun t i =>
    m_wait LIGHT_SHOW_DELAY1_MS ({ t.1 with PORTD := setBit t.1.PORTD i }, t.2)) t
  let t := m_wait LIGHT_SHOW_DELAY2_MS t
  (List.range NUM_LEDS).foldl (fun t i =>
    m_wait LIGHT_SHOW_DELAY3_MS ({ t.1 with PORTD := clearBit t.1.PORTD i }, t.2)) t

/-- `player2_celebration` (lines 146-161) with the frames of its waits. -/
def player2_celebrationT (t : State × List Frame) : State × List Frame :=
  (List.range CELEBRATE_TIMES).foldl (fun t _ => player2_danceT t) t

/-- One pass of the `for` loop of `reset_score` (lines 166-188) with the frames
of its two waits. -/
def flashOnceT (t : State × List Frame) : State × List Frame :=
  -- Turn on LEDs
  let s := t.1
  let s := { s with PORTB := setBit (setBit (setBit (setBit s.PORTB 0) 1) 2) 3 }
  let s := { s with PORTD := setBit (setBit (setBit (setBit s.PORTD 0) 1) 2) 3 }
  let t := m_wait RESET_LED_MS (s, t.2)
  -- Turn off LEDs
  let s := t.1
  let s := { s with PORTB := clearBit (clearBit (clearBit (clearBit s.PORTB 0) 1) 2) 3 }
  let s := { s with PORTD := clearBit (clearBit (clearBit (clearBit s.PORTD 0) 1) 2) 3 }
  m_wait RESET_LED_MS (s, t.2)

/-- `reset_score` (lines 164-195) with the frames of its waits. -/
def reset_scoreT (t : State × List Frame) : State × List Frame :=
  let t := (List.range NUM_LEDS).foldl (fun t _ => flashOnceT t) t
  ({ t.1 with score1 := 0, score2 := 0, counterS1 := 0, counterS2 := 0 }, t.2)

/-- The code after the Active loop (lines 79-86): the victor check with its
celebration, `m_wait(END_GAME_WAIT)`, then `reset_score`; the result is the
state at the next evaluation of the loop guard and the frames shown on the
way. -/
def endGame (s : State) : State × List Frame :=
  let t := match victor s with
    | Victor.player1 => player1_celebrationT (s, [])
    | Victor.player2 => player2_celebrationT (s, [])
    | Victor.nobody => (s, [])
  reset_scoreT (m_wait END_GAME_WAIT t)

/-- One step of `main` at the head of the Active loop: a pass of the loop body
when the guard holds (it consumes the reading), otherwise the end of the game
up to the next evaluation of the guard (the reading is not consumed). -/
def mainStep (s : State) (r : Reading) : State :=
  if activeGuard s then activeBody s r else (endGame s).1

/-- The state at the first evaluation of the Active loop's guard (lines 63-65). -/
def bootState : State := LED_show (init_LEDs initState)

/-- The state of `main` at the head of the Active loop after the given steps. -/
def run (s : State) (rs : List Reading) : State := rs.foldl mainStep s

/-! ## The reset button

`DDRC` is written only by `init_buttons` (line 116) and read only by the loop
body (line 72), so it is kept apart from `State`: every pass of the loop reads
the value that `init_buttons` left. -/

/-- What one pass of the reset loop (or of a celebration) does to a port. -/
def flashPort (p : Nat) : Nat :=
  clearBit (clearBit (clearBit (clearBit (setBit (setBit (setBit (setBit p 0) 1) 2) 3) 0) 1) 2) 3

/-- All four LEDs of a port on. -/
def allOn (p : Nat) : Nat := setBit (setBit (setBit (setBit p 0) 1) 2) 3

/-- The durations and the values of the celebrated port in the nine waits of
one pass of a celebration that starts with the port at `p`. -/
def danceSteps (p : Nat) : List (Nat × Nat) :=
  [(5, setBit p 0), (5, setBit (setBit p 0) 1), (5, setBit (setBit (setBit p 0) 1) 2),
   (5, allOn p), (10, allOn p),
   (5, clearBit (allOn p) 0), (5, clearBit (clearBit (allOn p) 0) 1),
   (5, clearBit (clearBit (clearBit (allOn p) 0) 1) 2), (5, flashPort p)]

/-- The 36 frames of player 1's celebration from ports `b` and `d`. -/
def celebration1Frames (b d : Nat) : List Frame :=
  (danceSteps b ++ danceSteps (flashPort b) ++ danceSteps (flashPort b)
    ++ danceSteps (flashPort b)).map (fun x => { ms := x.1, PORTB := x.2, PORTD := d })

/-- The 36 frames of player 2's celebration from ports `b` and `d`. -/
def celebration2Frames (b d : Nat) : List Frame :=
  (danceSteps d ++ danceSteps (flashPort d) ++ danceSteps (flashPort d)
    ++ danceSteps (flashPort d)).map (fun x => { ms := x.1, PORTB := b, PORTD := x.2 })

/-- The 8 frames of `reset_score` from ports `b` and `d`. -/
def resetFrames (b d : Nat) : List Frame :=
  [{ ms := 100, PORTB := allOn b, PORTD := allOn d },
   { ms := 100, PORTB := flashPort b, PORTD := flashPort d },
   { ms := 100, PORTB := allOn (flashPort b), PORTD := allOn (flashPort d) },
   { ms := 100, PORTB := flashPort b, PORTD := flashPort d },
   { ms := 100, PORTB := allOn (flashPort b), PORTD := allOn (flashPort d) },
   { ms := 100, PORTB := flashPort b, PORTD := flashPort d },
   { ms := 100, PORTB := allOn (flashPort b), PORTD := allOn (flashPort d) },
   { ms := 100, PORTB := flashPort b, PORTD := flashPort d }]

/-- What a frame shows: its duration and the four LEDs of each player. -/
def shown (f : Frame) : Nat × Nat × Nat := (f.ms, f.PORTB % 16, f.PORTD % 16)

/-- The frames of the end of a game when player 1 is celebrated. -/
def celebration1Trace (s : State) : List Frame :=
  (reset_scoreT (m_wait END_GAME_WAIT (player1_celebrationT (s, [])))).2

/-- The frames of the end of a game when player 2 is celebrated. -/
def celebration2Trace (s : State) : List Frame :=
  (reset_scoreT (m_wait END_GAME_WAIT (player2_celebrationT (s, [])))).2

/-- The frames of the end of a game when nobody is celebrated. -/
def noCelebrationTrace (s : State) : List Frame :=
  (reset_scoreT (m_wait END_GAME_WAIT (s, []))).2

/-- A state in which player 1 already has `maxScore` points and sensor F0 is
above the threshold. -/
def atMaxState : State := { initState with score1 := 10, f0val := 500 }

/-- The initial state with sensor F1 above the threshold: a goal of player 2. -/
def goal2State : State := { initState with f1val := 500 }

/-- A state in which player 2's counter is above 2 and player 1's is not. -/
def counter2State : State := { initState with counterS2 := 3 }

/-- The mirror image of `counter2State` for player 1. -/
def counter1State : State := { initState with counterS1 := 3 }

/-- A cycle in which player 1 scores (button not pressed). -/
def goal1 : Reading := { button := 1, adc0 := 500, adc1 := 0 }

/-- A cycle in which player 2 scores (button not pressed). -/
def goal2 : Reading := { button := 1, adc0 := 0, adc1 := 500 }

/-- The invariant of the runs of `main`: `maxScore` is 10, both scores lie in
0..10 and at most one of them is 10. -/
def RunInv (s : State) : Prop :=
  s.maxScore = 10 ∧ 0 ≤ s.score1 ∧ 0 ≤ s.score2 ∧ s.score1 ≤ 10 ∧ s.score2 ≤ 10 ∧
    (s.score1 < 10 ∨ s.score2 < 10)

/-! ## Bit-level facts about the register macros -/

theorem testBit_setBit (r i j : Nat) :
    (setBit r i).testBit j = (r.testBit j || decide (i = j)) := by
  simp [setBit, Nat.testBit_or, Nat.one_shiftLeft, Nat.testBit_two_pow]

theorem testBit_255 (j : Nat) : (255 : Nat).testBit j = decide (j < 8) := by
  have h := Nat.testBit_two_pow_sub_one 8 j
  simpa using h

theorem testBit_clearBit (r i j : Nat) :
    (clearBit r i).testBit j = (r.testBit j && (decide (j < 8) ^^ decide (i = j))) := by
  simp [clearBit, Nat.testBit_and, Nat.testBit_xor, Nat.one_shiftLeft, Nat.testBit_two_pow,
    testBit_255]

theorem tmod_two_eq_zero_iff (a : Int) : Int.tmod a 2 = 0 ↔ a % 2 = 0 := by
  constructor
  · intro h
    exact Int.emod_eq_zero_of_dvd (Int.dvd_of_tmod_eq_zero h)
  · intro h
    exact Int.tmod_eq_zero_of_dvd (Int.dvd_of_emod_eq_zero h)

/-- The low four bits of a register determine its value modulo 16. -/
theorem low_nibble (x : Nat) :
    x % 16 = (x.testBit 0).toNat + 2 * (x.testBit 1).toNat + 4 * (x.testBit 2).toNat
      + 8 * (x.testBit 3).toNat := by
  have e0 : (x.testBit 0).toNat = x / 2 ^ 0 % 2 := Nat.toNat_testBit x 0
  have e1 : (x.testBit 1).toNat = x / 2 ^ 1 % 2 := Nat.toNat_testBit x 1
  have e2 : (x.testBit 2).toNat = x / 2 ^ 2 % 2 := Nat.toNat_testBit x 2
  have e3 : (x.testBit 3).toNat = x / 2 ^ 3 % 2 := Nat.toNat_testBit x 3
  rw [e0, e1, e2, e3]
  norm_num
  omega

/-! ## Frame and effect lemmas of the display updates -/

theorem LED_S1_update_frame (s : State) :
    (LED_S1_update s).score1 = s.score1 ∧ (LED_S1_update s).score2 = s.score2 ∧
    (LED_S1_update s).maxScore = s.maxScore ∧
    (LED_S1_update s).resetButton = s.resetButton ∧
    (LED_S1_update s).counterS2 = s.counterS2 ∧ (LED_S1_update s).PORTD = s.PORTD ∧
    (LED_S1_update s).f0val = s.f0val ∧ (LED_S1_update s).f1val = s.f1val := by
  simp only [LED_S1_update]
  split_ifs <;> simp

theorem LED_S2_update_frame (s : State) :
    (LED_S2_update s).score1 = s.score1 ∧ (LED_S2_update s).score2 = s.score2 ∧
    (LED_S2_update s).maxScore = s.maxScore ∧
    (LED_S2_update s).resetButton = s.resetButton ∧
    (LED_S2_update s).counterS1 = s.counterS1 ∧ (LED_S2_update s).PORTB = s.PORTB ∧
    (LED_S2_update s).f0val = s.f0val ∧ (LED_S2_update s).f1val = s.f1val := by
  simp only [LED_S2_update]
  split_ifs <;> simp

theorem LED_S1_update_counterS1 (s : State) :
    (LED_S1_update s).counterS1 = if 2 < s.counterS1 then 0 else s.counterS1 := by
  simp only [LED_S1_update]
  split_ifs <;> simp_all <;> omega

theorem LED_S1_update_bit0 (s : State) :
    (LED_S1_update s).PORTB.testBit 0 = decide (s.score1 % 2 = 1) := by
  have h := tmod_two_eq_zero_iff s.score1
  have h2 := Int.emod_two_eq s.score1
  simp only [LED_S1_update]
  split_ifs <;> simp_all [-Nat.testBit_zero, testBit_setBit, testBit_clearBit]

theorem LED_S1_update_bit1 (s : State) :
    (LED_S1_update s).PORTB.testBit 1
      = decide ((4 ≤ s.score1 ∧ s.score1 ≤ 7) ∨ 12 ≤ s.score1) := by
  simp only [LED_S1_update]
  split_ifs <;> simp_all [testBit_setBit, testBit_clearBit] <;> omega

theorem LED_S1_update_bit2 (s : State) :
    (LED_S1_update s).PORTB.testBit 2 = decide (2 ≤ s.counterS1) := by
  simp only [LED_S1_update]
  split_ifs <;> simp_all [testBit_setBit, testBit_clearBit] <;> omega

theorem LED_S1_update_bit3 (s : State) :
    (LED_S1_update s).PORTB.testBit 3 = decide (8 ≤ s.score1) := by
  simp only [LED_S1_update]
  split_ifs <;> simp_all [testBit_setBit, testBit_clearBit]

theorem LED_S2_update_bit0 (s : State) :
    (LED_S2_update s).PORTD.testBit 0 = decide (s.score2 % 2 = 1) := by
  have h := tmod_two_eq_zero_iff s.score2
  have h2 := Int.emod_two_eq s.score2
  simp only [LED_S2_update]
  split_ifs <;> simp_all [-Nat.testBit_zero, testBit_setBit, testBit_clearBit]

theorem LED_S2_update_bit1 (s : State) :
    (LED_S2_update s).PORTD.testBit 1
      = decide ((4 ≤ s.score2 ∧ s.score2 ≤ 7) ∨ 12 ≤ s.score2) := by
  simp only [LED_S2_update]
  split_ifs <;> simp_all [testBit_setBit, testBit_clearBit] <;> omega

theorem LED_S2_update_bit3 (s : State) :
    (LED_S2_update s).PORTD.testBit 3 = decide (8 ≤ s.score2) := by
  simp only [LED_S2_update]
  split_ifs <;> simp_all [testBit_setBit, testBit_clearBit]

/-- LED #2 of player 2: the branch for a counter above 2 is taken only when
player 1's counter is above 2; otherwise the LED keeps its previous value. -/
theorem LED_S2_update_bit2 (s : State) :
    (LED_S2_update s).PORTD.testBit 2 =
      if s.counterS2 < 2 then false
      else if s.counterS2 = 2 then true
      else if 2 < s.counterS1 then true
      else s.PORTD.testBit 2 := by
  simp only [LED_S2_update]
  split_ifs <;> simp_all [testBit_setBit, testBit_clearBit]

theorem LED_S2_update_counterS2 (s : State) :
    (LED_S2_update s).counterS2 =
      if 2 < s.counterS2 ∧ 2 < s.counterS1 then 0 else s.counterS2 := by
  simp only [LED_S2_update]
  split_ifs <;> simp_all <;> omega

/-! ## The reset flash on one port -/

theorem testBit_flashPort (p j : Nat) :
    (flashPort p).testBit j = (p.testBit j && decide (4 ≤ j) && decide (j < 8)) := by
  simp only [flashPort, testBit_setBit, testBit_clearBit]
  rcases j with _ | _ | _ | _ | j
  · simp
  · simp
  · simp
  · simp
  · have h1 : ¬ (0 = j + 1 + 1 + 1 + 1) := by omega
    have h2 : ¬ (1 = j + 1 + 1 + 1 + 1) := by omega
    have h3 : ¬ (2 = j + 1 + 1 + 1 + 1) := by omega
    have h4 : ¬ (3 = j + 1 + 1 + 1 + 1) := by omega
    have h5 : 4 ≤ j + 1 + 1 + 1 + 1 := by omega
    simp [h1, h2, h3, h4, h5]

theorem flashPort_idem (p : Nat) : flashPort (flashPort p) = flashPort p := by
  apply Nat.eq_of_testBit_eq
  intro j
  rw [testBit_flashPort, testBit_flashPort]
  by_cases h1 : 4 ≤ j <;> by_cases h2 : j < 8 <;> simp [h1, h2]

theorem flashPort_mod16 (p : Nat) : flashPort p % 16 = 0 := by
  rw [low_nibble]
  simp only [testBit_flashPort]
  simp

theorem danceOnce_eq (p : Nat) : danceOnce p = flashPort p := rfl

theorem flashOnce_eq (s : State) :
    flashOnce s = { s with PORTB := flashPort s.PORTB, PORTD := flashPort s.PORTD } := rfl

theorem reset_score_eq (s : State) :
    reset_score s =
      { s with score1 := 0, score2 := 0, counterS1 := 0, counterS2 := 0,
               PORTB := flashPort s.PORTB, PORTD := flashPort s.PORTD } := by
  have h : reset_score s =
      { s with score1 := 0, score2 := 0, counterS1 := 0, counterS2 := 0,
               PORTB := flashPort (flashPort (flashPort (flashPort s.PORTB))),
               PORTD := flashPort (flashPort (flashPort (flashPort s.PORTD))) } := rfl
  rw [h]
  simp only [flashPort_idem]

theorem player1_celebration_eq (s : State) :
    player1_celebration s = { s with PORTB := flashPort s.PORTB } := by
  have h : player1_celebration s =
      { s with PORTB := flashPort (flashPort (flashPort (flashPort s.PORTB))) } := rfl
  rw [h]
  simp only [flashPort_idem]

theorem player2_celebration_eq (s : State) :
    player2_celebration s = { s with PORTD := flashPort s.PORTD } := by
  have h : player2_celebration s =
      { s with PORTD := flashPort (flashPort (flashPort (flashPort s.PORTD))) } := rfl
  rw [h]
  simp only [flashPort_idem]

/-! ## `update_score` -/

theorem update_score_score1 (s : State) :
    (update_score s).score1 = if 400 < s.f0val then s.score1 + 1 else s.score1 := by
  simp only [update_score, GOAL_THRESHOLD, gt_iff_lt]
  split_ifs <;> simp [(LED_S1_update_frame _).1, (LED_S2_update_frame _).1, credit1, credit2]

theorem update_score_score2 (s : State) :
    (update_score s).score2 =
      if 400 < s.f0val then s.score2 else if 400 < s.f1val then s.score2 + 1 else s.score2 := by
  simp only [update_score, GOAL_THRESHOLD, gt_iff_lt]
  split_ifs <;> simp [(LED_S1_update_frame _).2.1, (LED_S2_update_frame _).2.1, credit1, credit2]

theorem update_score_maxScore (s : State) : (update_score s).maxScore = s.maxScore := by
  simp only [update_score]
  split_ifs <;>
    simp [(LED_S1_update_frame _).2.2.1, (LED_S2_update_frame _).2.2.1, credit1, credit2]

/-- C1: the decision table of `update_score` with threshold 400. (a) If
`f0val > 400`, `score1` grows by exactly 1 and `score2` is unchanged, whatever
`f1val` is. (b) If `f0val <= 400` and `f1val > 400`, `score2` grows by exactly 1
and `score1` is unchanged. (c) If both are at most 400, neither score changes.
So no call changes both scores. -/
theorem update_score_decision_table (s : State) :
    (400 < s.f0val →
      (update_score s).score1 = s.score1 + 1 ∧ (update_score s).score2 = s.score2) ∧
    (s.f0val ≤ 400 → 400 < s.f1val →
      (update_score s).score2 = s.score2 + 1 ∧ (update_score s).score1 = s.score1) ∧
    (s.f0val ≤ 400 → s.f1val ≤ 400 →
      (update_score s).score1 = s.score1 ∧ (update_score s).score2 = s.score2) ∧
    ¬ ((update_score s).score1 ≠ s.score1 ∧ (update_score s).score2 ≠ s.score2) := by
  rw [update_score_score1, update_score_score2]
  refine ⟨?_, ?_, ?_, ?_⟩
  · intro h
    simp [h]
  · intro h0 h1
    have h0n : ¬ (400 < s.f0val) := by omega
    simp [h0n, h1]
  · intro h0 h1
    have h0n : ¬ (400 < s.f0val) := by omega
    have h1n : ¬ (400 < s.f1val) := by omega
    simp [h0n, h1n]
  · split_ifs <;> simp

/-- Witness of C1: the three rows of the table at concrete sensor values
(500, 500), (400, 401) and (400, 400) on the initial state. -/
theorem update_score_decision_table_witness :
    ((update_score { initState with f0val := 500, f1val := 500 }).score1 = 1 ∧
      (update_score { initState with f0val := 500, f1val := 500 }).score2 = 0) ∧
    ((update_score { initState with f0val := 400, f1val := 401 }).score2 = 1 ∧
      (update_score { initState with f0val := 400, f1val := 401 }).score1 = 0) ∧
    ((update_score { initState with f0val := 400, f1val := 400 }).score1 = 0 ∧
      (update_score { initState with f0val := 400, f1val := 400 }).score2 = 0) :=
  ⟨(update_score_decision_table { initState with f0val := 500, f1val := 500 }).1 (by decide),
   (update_score_decision_table { initState with f0val := 400, f1val := 401 }).2.1
     (by decide) (by decide),
   (update_score_decision_table { initState with f0val := 400, f1val := 400 }).2.2.1
     (by decide) (by decide)⟩

/-- C2, as stated, fails: `update_score` has no clamp. With `score1` equal to
`maxScore` (10) and `f0val = 500`, the call leaves `score1 = 11`, above
`maxScore`. -/
theorem update_score_exceeds_maxScore :
    atMaxState.score1 = atMaxState.maxScore ∧ 400 < atMaxState.f0val ∧
    atMaxState.score2 ≤ atMaxState.maxScore ∧
    (update_score atMaxState).score1 = 11 ∧
    (update_score atMaxState).maxScore = 10 ∧
    ¬ ((update_score atMaxState).score1 ≤ (update_score atMaxState).maxScore) := by
  rw [update_score_score1, update_score_maxScore]
  decide

/-- C2, amended: `update_score` increments without a clamp, and the bound is
kept by the guard of the loop in `main`: for every state with
`score1 < maxScore` and `score2 < maxScore`, after `update_score` (any sensor
values) both scores are at most `maxScore`, and `maxScore` is unchanged. -/
theorem update_score_bounded_under_guard (s : State)
    (h1 : s.score1 < s.maxScore) (h2 : s.score2 < s.maxScore) :
    (update_score s).score1 ≤ (update_score s).maxScore ∧
    (update_score s).score2 ≤ (update_score s).maxScore ∧
    (update_score s).maxScore = s.maxScore := by
  rw [update_score_score1, update_score_score2, update_score_maxScore]
  refine ⟨?_, ?_, rfl⟩
  · split_ifs <;> omega
  · split_ifs <;> omega

/-- Witness of the amended C2: player 1 scores from 9 points. -/
theorem update_score_bounded_under_guard_witness :
    ({ initState with score1 := 9, f0val := 500 } : State).score1
      < ({ initState with score1 := 9, f0val := 500 } : State).maxScore ∧
    ({ initState with score1 := 9, f0val := 500 } : State).score2
      < ({ initState with score1 := 9, f0val := 500 } : State).maxScore ∧
    ((update_score { initState with score1 := 9, f0val := 500 }).score1
        ≤ (update_score { initState with score1 := 9, f0val := 500 }).maxScore ∧
      (update_score { initState with score1 := 9, f0val := 500 }).score2
        ≤ (update_score { initState with score1 := 9, f0val := 500 }).maxScore ∧
      (update_score { initState with score1 := 9, f0val := 500 }).maxScore
        = ({ initState with score1 := 9, f0val := 500 } : State).maxScore) :=
  ⟨by decide, by decide,
   update_score_bounded_under_guard { initState with score1 := 9, f0val := 500 }
     (by decide) (by decide)⟩

/-- C4 fails on the code: the branch that credits player 2 increments
`counterS1`, not `counterS2`. On the initial state with `f1val = 500` the call
credits player 2 (`score2 = 1`), leaves `counterS2` at 0 and moves player 1's
`counterS1` to 1, both before the display update reads them (`credit2`) and
after the whole call. -/
theorem update_score_goal2_counters :
    goal2State.f0val ≤ 400 ∧ 400 < goal2State.f1val ∧
    (credit2 goal2State).score2 = goal2State.score2 + 1 ∧
    (credit2 goal2State).counterS2 = goal2State.counterS2 ∧
    (credit2 goal2State).counterS1 = goal2State.counterS1 + 1 ∧
    update_score goal2State = LED_S2_update (credit2 goal2State) ∧
    (update_score goal2State).score2 = 1 ∧
    (update_score goal2State).counterS2 = 0 ∧
    (update_score goal2State).counterS1 = 1 := by
  decide

/-- C5: the four-rule encoding of player 1's display. After `LED_S1_update`,
bit 0 of `PORTB` is set iff `score1` is odd, bit 1 iff `score1` is in 4..7 or at
least 12, bit 3 iff `score1 >= 8`, bit 2 is clear if `counterS1 < 2` and set if
`counterS1 >= 2`; `counterS1` is unchanged when it was at most 2 and reset to 0
when it was above 2; `score1` is unchanged. With `score1 = 5`, `counterS1 = 1`
the low four bits have value 3 and `counterS1` is still 1; with `counterS1 > 2`
an immediate second call clears bit 2 again. -/
theorem LED_S1_update_encoding (s : State) :
    ((LED_S1_update s).PORTB.testBit 0 = true ↔ s.score1 % 2 = 1) ∧
    ((LED_S1_update s).PORTB.testBit 1 = true ↔
      ((4 ≤ s.score1 ∧ s.score1 ≤ 7) ∨ 12 ≤ s.score1)) ∧
    ((LED_S1_update s).PORTB.testBit 3 = true ↔ 8 ≤ s.score1) ∧
    (s.counterS1 < 2 → (LED_S1_update s).PORTB.testBit 2 = false) ∧
    (2 ≤ s.counterS1 → (LED_S1_update s).PORTB.testBit 2 = true) ∧
    (s.counterS1 ≤ 2 → (LED_S1_update s).counterS1 = s.counterS1) ∧
    (2 < s.counterS1 → (LED_S1_update s).counterS1 = 0) ∧
    (LED_S1_update s).score1 = s.score1 ∧
    (s.score1 = 5 → s.counterS1 = 1 →
      (LED_S1_update s).PORTB % 16 = 3 ∧ (LED_S1_update s).counterS1 = 1) ∧
    (2 < s.counterS1 →
      (LED_S1_update (LED_S1_update s)).PORTB.testBit 2 = false) := by
  refine ⟨?_, ?_, ?_, ?_, ?_, ?_, ?_, (LED_S1_update_frame s).1, ?_, ?_⟩
  · rw [LED_S1_update_bit0]; simp
  · rw [LED_S1_update_bit1]; simp
  · rw [LED_S1_update_bit3]; simp
  · intro h
    rw [LED_S1_update_bit2]; simp; omega
  · intro h
    rw [LED_S1_update_bit2]; simp; omega
  · intro h
    rw [LED_S1_update_counterS1]
    have hn : ¬ (2 < s.counterS1) := by omega
    simp [hn]
  · intro h
    rw [LED_S1_update_counterS1]
    simp [h]
  · intro h5 h1
    constructor
    · rw [low_nibble, LED_S1_update_bit0, LED_S1_update_bit1, LED_S1_update_bit2,
        LED_S1_update_bit3, h5, h1]
      decide
    · rw [LED_S1_update_counterS1, h1]
      decide
  · intro h
    rw [LED_S1_update_bit2, LED_S1_update_counterS1]
    simp [h]

/-- Witness of C5: `score1 = 5` with `counterS1 = 1`, and `counterS1 = 3`. -/
theorem LED_S1_update_encoding_witness :
    ((LED_S1_update { initState with score1 := 5, counterS1 := 1 }).PORTB % 16 = 3 ∧
      (LED_S1_update { initState with score1 := 5, counterS1 := 1 }).counterS1 = 1) ∧
    (LED_S1_update { initState with score1 := 5, counterS1 := 1 }).PORTB.testBit 2 = false ∧
    (LED_S1_update counter1State).PORTB.testBit 2 = true ∧
    (LED_S1_update counter1State).counterS1 = 0 ∧
    (LED_S1_update (LED_S1_update counter1State)).PORTB.testBit 2 = false :=
  ⟨(LED_S1_update_encoding { initState with score1 := 5, counterS1 := 1 }).2.2.2.2.2.2.2.2.1
      (by decide) (by decide),
   (LED_S1_update_encoding { initState with score1 := 5, counterS1 := 1 }).2.2.2.1 (by decide),
   (LED_S1_update_encoding counter1State).2.2.2.2.1 (by decide),
   (LED_S1_update_encoding counter1State).2.2.2.2.2.2.1 (by decide),
   (LED_S1_update_encoding counter1State).2.2.2.2.2.2.2.2.2 (by decide)⟩

/-- C6 fails on the code: the branch of `LED_S2_update` for a counter above 2
tests `counterS1`. With `counterS2 = 3` and `counterS1 = 0` (LEDs off),
`LED_S2_update` leaves bit 2 of `PORTD` clear and `counterS2` at 3, whereas
`LED_S1_update` on the mirrored record (`counterS1 = 3`) sets bit 2 of `PORTB`
and resets `counterS1` to 0. -/
theorem LED_S2_update_uses_counterS1 :
    counter2State.counterS2 = 3 ∧ counter2State.counterS1 = 0 ∧
    (LED_S2_update counter2State).PORTD.testBit 2 = false ∧
    (LED_S2_update counter2State).counterS2 = 3 ∧
    (LED_S1_update counter1State).PORTB.testBit 2 = true ∧
    (LED_S1_update counter1State).counterS1 = 0 := by
  decide

/-- C10: `reset_score` restores the initial score state. For every state,
afterwards both scores and both counters are 0, bits 0..3 of `PORTB` and of
`PORTD` are clear, `maxScore` is unchanged, and a second `reset_score` gives
the same state. -/
theorem reset_score_restores (s : State) :
    (reset_score s).score1 = 0 ∧ (reset_score s).score2 = 0 ∧
    (reset_score s).counterS1 = 0 ∧ (reset_score s).counterS2 = 0 ∧
    (reset_score s).PORTB.testBit 0 = false ∧ (reset_score s).PORTB.testBit 1 = false ∧
    (reset_score s).PORTB.testBit 2 = false ∧ (reset_score s).PORTB.testBit 3 = false ∧
    (reset_score s).PORTD.testBit 0 = false ∧ (reset_score s).PORTD.testBit 1 = false ∧
    (reset_score s).PORTD.testBit 2 = false ∧ (reset_score s).PORTD.testBit 3 = false ∧
    (reset_score s).maxScore = s.maxScore ∧
    reset_score (reset_score s) = reset_score s := by
  have hidem : reset_score (reset_score s) = reset_score s := by
    rw [reset_score_eq (reset_score s), reset_score_eq s]
    simp only [flashPort_idem]
  rw [hidem, reset_score_eq]
  simp only [testBit_flashPort]
  simp

/-! ## The loop of `main` -/

theorem activeBody_score1 (s : State) (r : Reading) :
    (activeBody s r).score1 = if 400 < r.adc0 then s.score1 + 1 else s.score1 := by
  simp [activeBody, update_score_score1, update_ADC]

theorem activeBody_score2 (s : State) (r : Reading) :
    (activeBody s r).score2 =
      if 400 < r.adc0 then s.score2 else if 400 < r.adc1 then s.score2 + 1 else s.score2 := by
  simp [activeBody, update_score_score2, update_ADC]

theorem activeBody_maxScore (s : State) (r : Reading) :
    (activeBody s r).maxScore = s.maxScore := by
  simp [activeBody, update_score_maxScore, update_ADC]

theorem range_four : List.range 4 = [0, 1, 2, 3] := rfl

theorem player1_danceT_eq (s : State) (tr : List Frame) :
    player1_danceT (s, tr) =
      ({ s with PORTB := flashPort s.PORTB },
        tr ++ (danceSteps s.PORTB).map
          (fun x => { ms := x.1, PORTB := x.2, PORTD := s.PORTD })) := by
  simp [player1_danceT, NUM_LEDS, range_four, m_wait, flashPort, allOn, danceSteps,
    LIGHT_SHOW_DELAY1_MS, LIGHT_SHOW_DELAY2_MS, LIGHT_SHOW_DELAY3_MS]

theorem player2_danceT_eq (s : State) (tr : List Frame) :
    player2_danceT (s, tr) =
      ({ s with PORTD := flashPort s.PORTD },
        tr ++ (danceSteps s.PORTD).map
          (fun x => { ms := x.1, PORTB := s.PORTB, PORTD := x.2 })) := by
  simp [player2_danceT, NUM_LEDS, range_four, m_wait, flashPort, allOn, danceSteps,
    LIGHT_SHOW_DELAY1_MS, LIGHT_SHOW_DELAY2_MS, LIGHT_SHOW_DELAY3_MS]

theorem player1_celebrationT_eq (s : State) (tr : List Frame) :
    player1_celebrationT (s, tr) =
      ({ s with PORTB := flashPort s.PORTB },
        tr ++ celebration1Frames s.PORTB s.PORTD) := by
  simp [player1_celebrationT, CELEBRATE_TIMES, range_four, player1_danceT_eq,
    celebration1Frames, flashPort_idem]

theorem player2_celebrationT_eq (s : State) (tr : List Frame) :
    player2_celebrationT (s, tr) =
      ({ s with PORTD := flashPort s.PORTD },
        tr ++ celebration2Frames s.PORTB s.PORTD) := by
  simp [player2_celebrationT, CELEBRATE_TIMES, range_four, player2_danceT_eq,
    celebration2Frames, flashPort_idem]

theorem flashOnceT_eq (s : State) (tr : List Frame) :
    flashOnceT (s, tr) =
      ({ s with PORTB := flashPort s.PORTB, PORTD := flashPort s.PORTD },
        tr ++ [{ ms := 100, PORTB := allOn s.PORTB, PORTD := allOn s.PORTD },
               { ms := 100, PORTB := flashPort s.PORTB, PORTD := flashPort s.PORTD }]) := by
  simp [flashOnceT, m_wait, flashPort, allOn, RESET_LED_MS]

theorem reset_scoreT_eq (s : State) (tr : List Frame) :
    reset_scoreT (s, tr) = (reset_score s, tr ++ resetFrames s.PORTB s.PORTD) := by
  simp [reset_scoreT, NUM_LEDS, range_four, flashOnceT_eq, resetFrames, flashPort_idem,
    reset_score_eq]

theorem player1_celebrationT_state (s : State) (tr : List Frame) :
    (player1_celebrationT (s, tr)).1 = player1_celebration s := by
  rw [player1_celebrationT_eq, player1_celebration_eq]

theorem player2_celebrationT_state (s : State) (tr : List Frame) :
    (player2_celebrationT (s, tr)).1 = player2_celebration s := by
  rw [player2_celebrationT_eq, player2_celebration_eq]

theorem reset_scoreT_state (t : State × List Frame) :
    (reset_scoreT t).1 = reset_score t.1 := by
  obtain ⟨s, tr⟩ := t
  rw [reset_scoreT_eq]

theorem m_wait_state (ms : Nat) (t : State × List Frame) : (m_wait ms t).1 = t.1 := rfl

theorem endGame_player1 (s : State) (h : victor s = Victor.player1) :
    endGame s = reset_scoreT (m_wait END_GAME_WAIT (player1_celebrationT (s, []))) := by
  unfold endGame
  rw [h]

theorem endGame_player2 (s : State) (h : victor s = Victor.player2) :
    endGame s = reset_scoreT (m_wait END_GAME_WAIT (player2_celebrationT (s, []))) := by
  unfold endGame
  rw [h]

theorem endGame_nobody (s : State) (h : victor s = Victor.nobody) :
    endGame s = reset_scoreT (m_wait END_GAME_WAIT (s, [])) := by
  unfold endGame
  rw [h]

/-- The state after the end of a game is the one `reset_score` leaves, after
the celebration of the victor if there is one. -/
theorem endGame_state (s : State) :
    (endGame s).1 =
      match victor s with
      | Victor.player1 => reset_score (player1_celebration s)
      | Victor.player2 => reset_score (player2_celebration s)
      | Victor.nobody => reset_score s := by
  cases h : victor s
  · rw [endGame_player1 s h, reset_scoreT_state, m_wait_state, player1_celebrationT_state]
  · rw [endGame_player2 s h, reset_scoreT_state, m_wait_state, player2_celebrationT_state]
  · rw [endGame_nobody s h, reset_scoreT_state, m_wait_state]

theorem endGame_fields (s : State) :
    (endGame s).1.score1 = 0 ∧ (endGame s).1.score2 = 0 ∧
    (endGame s).1.maxScore = s.maxScore ∧
    (endGame s).1.resetButton = s.resetButton := by
  rw [endGame_state]
  cases victor s <;>
    simp [reset_score_eq, player1_celebration_eq, player2_celebration_eq]

theorem activeGuard_iff (s : State) :
    activeGuard s = true ↔
      s.score1 < s.maxScore ∧ s.score2 < s.maxScore ∧ s.resetButton ≠ 0 := by
  simp [activeGuard, and_assoc]

theorem mainStep_inv (s : State) (r : Reading) (h : RunInv s) : RunInv (mainStep s r) := by
  obtain ⟨hm, h1, h2, h3, h4, h5⟩ := h
  unfold mainStep
  by_cases hg : activeGuard s = true
  · rw [if_pos hg]
    obtain ⟨g1, g2, _⟩ := (activeGuard_iff s).mp hg
    unfold RunInv
    rw [activeBody_score1, activeBody_score2, activeBody_maxScore]
    refine ⟨hm, ?_, ?_, ?_, ?_, ?_⟩ <;> split_ifs <;> omega
  · rw [if_neg hg]
    obtain ⟨e1, e2, e3, _⟩ := endGame_fields s
    unfold RunInv
    rw [e1, e2, e3]
    omega

theorem run_inv (rs : List Reading) : ∀ s : State, RunInv s → RunInv (run s rs) := by
  induction rs with
  | nil => intro s h; exact h
  | cons r rs ih =>
    intro s h
    exact ih (mainStep s r) (mainStep_inv s r h)

theorem bootState_inv : RunInv bootState := by
  unfold RunInv
  decide

theorem initState_inv : RunInv initState := by
  unfold RunInv
  decide

theorem reset_score_inv (t : State) (h : t.maxScore = 10) : RunInv (reset_score t) := by
  unfold RunInv
  rw [reset_score_eq]
  simp [h]

/-- C3: the run invariant of the Active loop. Starting from the initial state
(before or after the start-up light show) or from a state left by
`reset_score` (with `maxScore = 10`), after any sequence of steps of `main`
both scores are at most `maxScore`, and when the loop's guard holds a pass of
the loop body, with any readings, changes each score by 0 or +1 and keeps both
at most `maxScore`. -/
theorem main_run_invariant (s0 : State)
    (h0 : s0 = initState ∨ s0 = bootState ∨ ∃ t : State, t.maxScore = 10 ∧ s0 = reset_score t)
    (rs : List Reading) :
    (run s0 rs).score1 ≤ (run s0 rs).maxScore ∧
    (run s0 rs).score2 ≤ (run s0 rs).maxScore ∧
    (activeGuard (run s0 rs) = true → ∀ r : Reading,
      ((activeBody (run s0 rs) r).score1 = (run s0 rs).score1 ∨
        (activeBody (run s0 rs) r).score1 = (run s0 rs).score1 + 1) ∧
      ((activeBody (run s0 rs) r).score2 = (run s0 rs).score2 ∨
        (activeBody (run s0 rs) r).score2 = (run s0 rs).score2 + 1) ∧
      (activeBody (run s0 rs) r).score1 ≤ (activeBody (run s0 rs) r).maxScore ∧
      (activeBody (run s0 rs) r).score2 ≤ (activeBody (run s0 rs) r).maxScore) := by
  have hs0 : RunInv s0 := by
    rcases h0 with h | h | ⟨t, ht, h⟩
    · rw [h]; exact initState_inv
    · rw [h]; exact bootState_inv
    · rw [h]; exact reset_score_inv t ht
  obtain ⟨hm, h1, h2, h3, h4, h5⟩ := run_inv rs s0 hs0
  refine ⟨by omega, by omega, ?_⟩
  intro hg r
  obtain ⟨g1, g2, _⟩ := (activeGuard_iff _).mp hg
  rw [activeBody_score1, activeBody_score2, activeBody_maxScore]
  refine ⟨?_, ?_, ?_, ?_⟩ <;> split_ifs <;> omega

/-- Witness of C3: from the start-up state, after eight goals of player 1 the
guard holds and a ninth goal moves `score1` from 8 to 9. -/
theorem main_run_invariant_witness :
    (bootState = initState ∨ bootState = bootState ∨
      ∃ t : State, t.maxScore = 10 ∧ bootState = reset_score t) ∧
    activeGuard (run bootState (List.replicate 8 goal1)) = true ∧
    (run bootState (List.replicate 8 goal1)).score1
      ≤ (run bootState (List.replicate 8 goal1)).maxScore ∧
    ((activeBody (run bootState (List.replicate 8 goal1)) goal1).score1
        = (run bootState (List.replicate 8 goal1)).score1 ∨
      (activeBody (run bootState (List.replicate 8 goal1)) goal1).score1
        = (run bootState (List.replicate 8 goal1)).score1 + 1) :=
  ⟨Or.inr (Or.inl rfl), by decide,
   (main_run_invariant bootState (Or.inr (Or.inl rfl)) (List.replicate 8 goal1)).1,
   ((main_run_invariant bootState (Or.inr (Or.inl rfl)) (List.replicate 8 goal1)).2.2
      (by decide) goal1).1⟩

/-! ## The frames of the end of a game -/

theorem celebration1Trace_eq (s : State) :
    celebration1Trace s =
      celebration1Frames s.PORTB s.PORTD
        ++ { ms := 20, PORTB := flashPort s.PORTB, PORTD := s.PORTD }
        :: resetFrames (flashPort s.PORTB) s.PORTD := by
  simp [celebration1Trace, player1_celebrationT_eq, m_wait, reset_scoreT_eq, END_GAME_WAIT]

theorem celebration2Trace_eq (s : State) :
    celebration2Trace s =
      celebration2Frames s.PORTB s.PORTD
        ++ { ms := 20, PORTB := s.PORTB, PORTD := flashPort s.PORTD }
        :: resetFrames s.PORTB (flashPort s.PORTD) := by
  simp [celebration2Trace, player2_celebrationT_eq, m_wait, reset_scoreT_eq, END_GAME_WAIT]

theorem noCelebrationTrace_eq (s : State) :
    noCelebrationTrace s =
      { ms := 20, PORTB := s.PORTB, PORTD := s.PORTD } :: resetFrames s.PORTB s.PORTD := by
  simp [noCelebrationTrace, m_wait, reset_scoreT_eq, END_GAME_WAIT]

theorem celebration1Trace_length (s : State) : (celebration1Trace s).length = 45 := by
  simp [celebration1Trace_eq, celebration1Frames, danceSteps, resetFrames]

theorem celebration2Trace_length (s : State) : (celebration2Trace s).length = 45 := by
  simp [celebration2Trace_eq, celebration2Frames, danceSteps, resetFrames]

theorem noCelebrationTrace_length (s : State) : (noCelebrationTrace s).length = 9 := by
  simp [noCelebrationTrace_eq, resetFrames]

theorem allOn_testBit_zero (p : Nat) : (allOn p).testBit 0 = true := by
  simp [allOn, testBit_setBit, -Nat.testBit_zero]

theorem flashPort_testBit_zero (p : Nat) : (flashPort p).testBit 0 = false := by
  rw [testBit_flashPort]
  simp

/-- The frames of player 1's celebration are never those of player 2's: with
all four LEDs of a port on and then off, the port cannot have kept its value. -/
theorem celebration_traces_ne (s : State) : celebration1Trace s ≠ celebration2Trace s := by
  intro h
  rw [celebration1Trace_eq, celebration2Trace_eq] at h
  have h4 := congrArg (fun l => (l[4]?).map Frame.PORTB) h
  have h8 := congrArg (fun l => (l[8]?).map Frame.PORTB) h
  simp [celebration1Frames, celebration2Frames, danceSteps] at h4 h8
  have e1 := allOn_testBit_zero s.PORTB
  have e2 := flashPort_testBit_zero s.PORTB
  rw [h4] at e1
  rw [h8] at e2
  rw [e1] at e2
  exact Bool.noConfusion e2

theorem endGame_frames_player1 (s : State) :
    (endGame s).2 = celebration1Trace s ↔ victor s = Victor.player1 := by
  constructor
  · intro h
    cases hv : victor s
    · rfl
    · rw [endGame_player2 s hv] at h
      exact absurd h.symm (celebration_traces_ne s)
    · rw [endGame_nobody s hv] at h
      have hl := congrArg List.length h
      rw [celebration1Trace_length] at hl
      have hn := noCelebrationTrace_length s
      unfold noCelebrationTrace at hn
      omega
  · intro hv
    rw [endGame_player1 s hv]
    rfl

theorem endGame_frames_player2 (s : State) :
    (endGame s).2 = celebration2Trace s ↔ victor s = Victor.player2 := by
  constructor
  · intro h
    cases hv : victor s
    · rw [endGame_player1 s hv] at h
      exact absurd h (celebration_traces_ne s)
    · rfl
    · rw [endGame_nobody s hv] at h
      have hl := congrArg List.length h
      rw [celebration2Trace_length] at hl
      have hn := noCelebrationTrace_length s
      unfold noCelebrationTrace at hn
      omega
  · intro hv
    rw [endGame_player2 s hv]
    rfl

theorem nibble_setBit_flashPort_0 (p : Nat) : setBit (flashPort p) 0 % 16 = 1 := by
  rw [low_nibble]
  simp [testBit_setBit, testBit_clearBit, testBit_flashPort, -Nat.testBit_zero]

/-- The second pass of a celebration, on the four LEDs of the celebrated port:
they come on one after the other, stay on, and go off one after the other. -/
theorem danceSteps_flashPort_nibbles (p : Nat) :
    (danceSteps (flashPort p)).map (fun x => (x.1, x.2 % 16)) =
      [(5, 1), (5, 3), (5, 7), (5, 15), (10, 15), (5, 14), (5, 12), (5, 8), (5, 0)] := by
  simp only [danceSteps, List.map, allOn, flashPort_idem]
  simp only [low_nibble, flashPort]
  simp [testBit_setBit, testBit_clearBit, -Nat.testBit_zero]

/-- Frames 9 to 17 of the end of a game won by player 1: the second pass of
the celebration, with player 2's port untouched. -/
theorem celebration1Trace_second_pass (s : State) :
    (((celebration1Trace s).drop 9).take 9).map shown =
      ([(5, 1), (5, 3), (5, 7), (5, 15), (10, 15), (5, 14), (5, 12), (5, 8), (5, 0)]
        : List (Nat × Nat)).map (fun x => (x.1, x.2, s.PORTD % 16)) := by
  have hs := danceSteps_flashPort_nibbles s.PORTB
  have hl : ∀ p : Nat, (danceSteps p).length = 9 := fun p => rfl
  rw [celebration1Trace_eq]
  simp only [celebration1Frames, List.map_append, List.append_assoc]
  rw [List.drop_left' (by rw [List.length_map, hl]),
    List.take_left' (by rw [List.length_map, hl]), ← hs]
  simp only [List.map_map]
  rfl

/-- C7: win detection in `main` with `maxScore = 10`. At every point of a run
from the start-up state: the Active loop's guard holds exactly while
`score1 < 10`, `score2 < 10` and `resetButton` is nonzero; the victor check
picks player 1 iff `score1 >= maxScore` and player 2 iff `score1 < maxScore`
and `score2 >= maxScore`; the frames the LEDs show after the loop are those of
`player1_celebration` (followed by the end-of-game wait and `reset_score`) iff
`score1 >= maxScore`, those of `player2_celebration` iff `score1 < maxScore`
and `score2 >= maxScore`, and those of the wait and `reset_score` alone when
neither holds; when player 1 is celebrated there are 45 frames and in the
second pass of the celebration player 1's LEDs come on one by one, stay on and
go off one by one while player 2's LEDs keep their pattern; the winner's score
is exactly
`maxScore`; the two scores are never both at least `maxScore`; and a pass of
the loop body ends the loop in favour of player 1 exactly when it makes
`score1` equal to 10, in which case the next step of `main` shows the frames
of player 1's celebration and ends in the state `reset_score` leaves. -/
theorem main_win_detection (rs : List Reading) :
    (run bootState rs).maxScore = 10 ∧
    (activeGuard (run bootState rs) = true ↔
      (run bootState rs).score1 < 10 ∧ (run bootState rs).score2 < 10 ∧
        (run bootState rs).resetButton ≠ 0) ∧
    (victor (run bootState rs) = Victor.player1 ↔
      (run bootState rs).score1 ≥ (run bootState rs).maxScore) ∧
    (victor (run bootState rs) = Victor.player2 ↔
      (run bootState rs).score1 < (run bootState rs).maxScore ∧
        (run bootState rs).score2 ≥ (run bootState rs).maxScore) ∧
    ((endGame (run bootState rs)).2 = celebration1Trace (run bootState rs) ↔
      (run bootState rs).score1 ≥ (run bootState rs).maxScore) ∧
    ((endGame (run bootState rs)).2 = celebration2Trace (run bootState rs) ↔
      (run bootState rs).score1 < (run bootState rs).maxScore ∧
        (run bootState rs).score2 ≥ (run bootState rs).maxScore) ∧
    ((run bootState rs).score1 < (run bootState rs).maxScore →
      (run bootState rs).score2 < (run bootState rs).maxScore →
      (endGame (run bootState rs)).2 = noCelebrationTrace (run bootState rs) ∧
      (endGame (run bootState rs)).2.length = 9) ∧
    ((run bootState rs).score1 ≥ (run bootState rs).maxScore →
      (endGame (run bootState rs)).2.length = 45 ∧
      (((endGame (run bootState rs)).2.drop 9).take 9).map shown =
        ([(5, 1), (5, 3), (5, 7), (5, 15), (10, 15), (5, 14), (5, 12), (5, 8), (5, 0)]
          : List (Nat × Nat)).map (fun x => (x.1, x.2, (run bootState rs).PORTD % 16))) ∧
    (victor (run bootState rs) = Victor.player1 →
      (run bootState rs).score1 = (run bootState rs).maxScore) ∧
    (victor (run bootState rs) = Victor.player2 →
      (run bootState rs).score2 = (run bootState rs).maxScore) ∧
    ¬ ((run bootState rs).score1 ≥ (run bootState rs).maxScore ∧
        (run bootState rs).score2 ≥ (run bootState rs).maxScore) ∧
    (activeGuard (run bootState rs) = true → ∀ r r2 : Reading,
      ((activeBody (run bootState rs) r).score1 = 10 ↔
        (activeGuard (activeBody (run bootState rs) r) = false ∧
          victor (activeBody (run bootState rs) r) = Victor.player1)) ∧
      ((activeBody (run bootState rs) r).score1 = 10 →
        (endGame (activeBody (run bootState rs) r)).2
          = celebration1Trace (activeBody (run bootState rs) r) ∧
        mainStep (activeBody (run bootState rs) r) r2
          = reset_score (player1_celebration (activeBody (run bootState rs) r)))) := by
  obtain ⟨hm, h1, h2, h3, h4, h5⟩ := run_inv rs bootState bootState_inv
  have hv1 : ∀ t : State, victor t = Victor.player1 ↔ t.score1 ≥ t.maxScore := by
    intro t
    unfold victor
    split_ifs <;> simp_all
  have hv2 : ∀ t : State,
      victor t = Victor.player2 ↔ t.score1 < t.maxScore ∧ t.score2 ≥ t.maxScore := by
    intro t
    unfold victor
    split_ifs <;> simp_all
  have hv3 : ∀ t : State,
      t.score1 < t.maxScore → t.score2 < t.maxScore → victor t = Victor.nobody := by
    intro t a b
    unfold victor
    split_ifs <;> first | rfl | omega
  refine ⟨hm, ?_, hv1 _, hv2 _, ?_, ?_, ?_, ?_, ?_, ?_, ?_, ?_⟩
  · rw [activeGuard_iff, hm]
  · rw [endGame_frames_player1, hv1]
  · rw [endGame_frames_player2, hv2]
  · intro a b
    have e : (endGame (run bootState rs)).2 = noCelebrationTrace (run bootState rs) := by
      rw [endGame_nobody _ (hv3 _ a b)]
      rfl
    exact ⟨e, by rw [e, noCelebrationTrace_length]⟩
  · intro a
    have e : (endGame (run bootState rs)).2 = celebration1Trace (run bootState rs) :=
      (endGame_frames_player1 _).mpr ((hv1 _).mpr a)
    refine ⟨by rw [e, celebration1Trace_length], ?_⟩
    rw [e]
    exact celebration1Trace_second_pass _
  · intro h
    have := (hv1 _).mp h
    omega
  · intro h
    have := (hv2 _).mp h
    omega
  · omega
  · intro hg r r2
    have hinv : RunInv (activeBody (run bootState rs) r) := by
      have h := mainStep_inv (run bootState rs) r ⟨hm, h1, h2, h3, h4, h5⟩
      unfold mainStep at h
      rw [if_pos hg] at h
      exact h
    obtain ⟨bm, b1, b2, b3, b4, b5⟩ := hinv
    have hiff : (activeBody (run bootState rs) r).score1 = 10 ↔
        (activeGuard (activeBody (run bootState rs) r) = false ∧
          victor (activeBody (run bootState rs) r) = Victor.player1) := by
      constructor
      · intro h10
        constructor
        · cases hgb : activeGuard (activeBody (run bootState rs) r)
          · rfl
          · have := (activeGuard_iff _).mp hgb
            omega
        · exact (hv1 _).mpr (by omega)
      · rintro ⟨_, hv⟩
        have := (hv1 _).mp hv
        omega
    refine ⟨hiff, ?_⟩
    intro h10
    obtain ⟨hg0, hv⟩ := hiff.mp h10
    refine ⟨(endGame_frames_player1 _).mpr hv, ?_⟩
    unfold mainStep
    rw [hg0, endGame_state, hv]
    simp

/-- Witness of C7: after nine goals of player 1 the guard holds, and the tenth
goal ends the loop with player 1 as the victor; the frames shown next are
those of player 1's celebration, 45 in all. -/
theorem main_win_detection_witness :
    activeGuard (run bootState (List.replicate 9 goal1)) = true ∧
    (activeBody (run bootState (List.replicate 9 goal1)) goal1).score1 = 10 ∧
    activeGuard (activeBody (run bootState (List.replicate 9 goal1)) goal1) = false ∧
    victor (activeBody (run bootState (List.replicate 9 goal1)) goal1) = Victor.player1 ∧
    (endGame (activeBody (run bootState (List.replicate 9 goal1)) goal1)).2
      = celebration1Trace (activeBody (run bootState (List.replicate 9 goal1)) goal1) ∧
    mainStep (activeBody (run bootState (List.replicate 9 goal1)) goal1) goal1
      = reset_score (player1_celebration
          (activeBody (run bootState (List.replicate 9 goal1)) goal1)) ∧
    (run bootState (List.replicate 10 goal1)).score1
      ≥ (run bootState (List.replicate 10 goal1)).maxScore ∧
    (endGame (run bootState (List.replicate 10 goal1))).2.length = 45 :=
  ⟨by decide, by decide,
   (((main_win_detection (List.replicate 9 goal1)).2.2.2.2.2.2.2.2.2.2.2
      (by decide) goal1 goal1).1.mp (by decide)).1,
   (((main_win_detection (List.replicate 9 goal1)).2.2.2.2.2.2.2.2.2.2.2
      (by decide) goal1 goal1).1.mp (by decide)).2,
   (((main_win_detection (List.replicate 9 goal1)).2.2.2.2.2.2.2.2.2.2.2
      (by decide) goal1 goal1).2 (by decide)).1,
   (((main_win_detection (List.replicate 9 goal1)).2.2.2.2.2.2.2.2.2.2.2
      (by decide) goal1 goal1).2 (by decide)).2,
   by decide,
   ((main_win_detection (List.replicate 10 goal1)).2.2.2.2.2.2.2.1 (by decide)).1⟩

/-- C8 fails on the code: the LED pattern does not determine the score. All
states below are reached from the start-up state and taken right after the
display update of the scoring player. Player 2 with 1 point and with 3 points
(three goals of player 2) shows the same pattern 1 on `PORTD`, because
`counterS2` is never incremented; player 1 with 1 point (after two goals of
player 2) and with 3 points (three goals of player 1) shows the same pattern 5
on `PORTB`, because `counterS1` also counts player 2's goals. -/
theorem display_pattern_collision :
    (run bootState [goal2]).score2 = 1 ∧
    (run bootState [goal2, goal2, goal2]).score2 = 3 ∧
    (run bootState [goal2]).PORTD % 16 = 1 ∧
    (run bootState [goal2, goal2, goal2]).PORTD % 16 = 1 ∧
    (run bootState [goal2, goal2, goal2]).counterS2 = 0 ∧
    (run bootState [goal2, goal2, goal1]).score1 = 1 ∧
    (run bootState [goal1, goal1, goal1]).score1 = 3 ∧
    (run bootState [goal2, goal2, goal1]).PORTB % 16 = 5 ∧
    (run bootState [goal1, goal1, goal1]).PORTB % 16 = 5 := by
  decide

/-! ## The reset button and the restart of the loop -/

end Foosballin
